import Mathlib

/-!
Shallow embedding of the ARM production-line simulator: the C++ core
(ItemType, Worker, Belt, ProductionLine) and the plain-C rewrite
(simple.c), together with theorems checking the specification claims.

Modelling conventions:
* Machine integers (u32int, u64int, unsigned char) are modelled as Nat;
  the loop counters of Belt.advanceBelt, which are C int, are modelled as
  Int so that the loop bounds match the source exactly.
* The float type named probability is modelled as the exact rationals.
* ItemType heap objects are modelled as values; in the program every item
  kind is one unique registered object, and every belt slot or hand holds
  a pointer to that object, so pointer equality coincides with structural
  equality of the modelled value.  The mutable fields weight,
  generationProbability and numberCollected are split out: weight and
  generationProbability live in the registry entries (RegItem), and the
  per-object numberCollected counters are a function from items to Nat
  carried in the Belt state.
* The NULL-terminated componentsRequired array is modelled by the list of
  the component ids it would be compared against, since the source only
  ever reads getId of its entries.  A NULL array pointer is none.
* The malloc slot buffer is modelled as a total function from Int to
  Option ItemType: the source overallocates (slots times sizeof(ItemType)
  bytes), so the out-of-range store performed by advanceBelt lands in
  allocation slack; the flat function records such stores faithfully.
* Linked lists (itemsToMake, workers, finishedItems) are Lean lists with
  the head being the most recently added element, as in the source where
  each add prepends.  The in-place mutation of a selected worker is
  modelled by returning its list index from getNextWorker and writing the
  updated worker back with List.set.
-/

/-- The eye-catching null item id, tilde zero as u32int. -/
def NULL_ITEM_ID : Nat := 4294967295

/-- Identity part of the C++ ItemType object: name, id, and the recipe
(componentsRequired), recorded as the list of required component ids. -/
structure ItemType where
  name : Nat
  id : Nat
  componentsRequired : Option (List Nat)
deriving DecidableEq

/-- ItemType.assemble: returns self when every required component id is
found among the available items, comparing by getId, and NULL (none)
when there is no recipe or some component is missing. -/
def ItemType.assemble (self : ItemType) (componentsAvailable : List ItemType) :
    Option ItemType :=
  match self.componentsRequired with
  | none => none
  | some req =>
      if req.all (fun rid => componentsAvailable.any (fun a => a.id = rid)) then
        some self
      else
        none

/-- ASSEMBLE_TIME: it takes four cycles to build once the pieces are held. -/
def ASSEMBLE_TIME : Nat := 4

/-- The C++ Worker object.  position and weight are u32int,
workProbability is the float probability, amAssembling is the remaining
assembly cycle count, and the two hands hold item pointers. -/
structure Worker where
  position : Nat
  weight : Nat
  workProbability : ℚ
  doneWork : Bool
  amAssembling : Nat
  leftHand : Option ItemType
  rightHand : Option ItemType
deriving DecidableEq

/-- First hand block of Worker.doWork: if the left hand is empty and the
offered pointer is not already in the right hand, take it in the left
hand and empty the slot. -/
def Worker.pickupLeft (w : Worker) (it : Option ItemType) :
    Option ItemType × Worker :=
  if w.leftHand = none ∧ it ≠ w.rightHand then
    (none, { w with leftHand := it })
  else
    (it, w)

/-- Second hand block of Worker.doWork, run after the left block on the
possibly updated worker: if the right hand is empty and the offered
pointer is not already in the (possibly just filled) left hand, take it
in the right hand and empty the slot. -/
def Worker.pickupRight (w : Worker) (it : Option ItemType)
    (out : Option ItemType) : Option ItemType × Worker :=
  if w.rightHand = none ∧ it ≠ w.leftHand then
    (none, { w with rightHand := it })
  else
    (out, w)

/-- The slot-inspection part of Worker.doWork: if the slot is one of the
two sorts of empty (NULL pointer or the null item id) nothing happens,
otherwise the two sequential hand blocks run. -/
def Worker.pickupPhase (w : Worker) (it : Option ItemType) :
    Option ItemType × Worker :=
  match it with
  | none => (none, w)
  | some i =>
      if i.id = NULL_ITEM_ID then
        (some i, w)
      else
        let s := w.pickupLeft (some i)
        s.2.pickupRight (some i) s.1

/-- Final part of Worker.doWork: when both hands are full and the
finished thing assembles from them, start assembling.  The hands are not
modified here. -/
def Worker.assembleCheck (w : Worker) (finishedThing : ItemType) : Worker :=
  match w.leftHand, w.rightHand with
  | some l, some r =>
      if (finishedThing.assemble [l, r]).isSome then
        { w with amAssembling := ASSEMBLE_TIME }
      else
        w
  | _, _ => w

/-- Worker.doWork from the C++ core.  Returns the new slot contents (out)
and the updated worker.  finishedThing is the head of the finished
products list, as passed by runSim. -/
def Worker.doWork (w0 : Worker) (it : Option ItemType)
    (finishedThing : ItemType) : Option ItemType × Worker :=
  let w := { w0 with doneWork := true }
  if 0 < w.amAssembling then
    let w1 := { w with amAssembling := w.amAssembling - 1 }
    (if w1.amAssembling = 0 then some finishedThing else it, w1)
  else
    let s := w.pickupPhase it
    (s.1, s.2.assembleCheck finishedThing)

/-- A registered item factory: the ItemType object together with its
mutable weight and generationProbability fields. -/
structure RegItem where
  item : ItemType
  weight : Nat
  genProb : ℚ
deriving DecidableEq

/-- The C++ Belt object. -/
structure Belt where
  numberOfSlots : Nat
  workers : List Worker
  itemsToMake : List RegItem
  finishedItems : List ItemType
  totalItemWeighting : Nat
  totalWorkerWeighting : Nat
  currentWorkerMaxProbability : ℚ
  beltSlots : Int → Option ItemType
  collected : ItemType → Nat

/-- Belt constructor: empty registries and a zeroed slot buffer.  The
allocation slack beyond the logical slots is modelled as empty too. -/
def Belt.new (slots : Nat) : Belt :=
  { numberOfSlots := slots
    workers := []
    itemsToMake := []
    finishedItems := []
    totalItemWeighting := 0
    totalWorkerWeighting := 0
    currentWorkerMaxProbability := 1
    beltSlots := fun _ => none
    collected := fun _ => 0 }

/-- Belt.addWorker: prepend a worker with the given position and
weighting, add the weighting to the total, recompute every workers
probability as weight over the new total, and reset the probability
space to one. -/
def Belt.addWorker (b : Belt) (position : Nat) (weighting : Nat) : Belt :=
  let newWorker : Worker :=
    { position := position
      weight := weighting
      workProbability := 0
      doneWork := false
      amAssembling := 0
      leftHand := none
      rightHand := none }
  let total := b.totalWorkerWeighting + weighting
  let ws := (newWorker :: b.workers).map
    (fun wk => { wk with workProbability := (wk.weight : ℚ) / (total : ℚ) })
  { b with
      workers := ws
      totalWorkerWeighting := total
      currentWorkerMaxProbability := 1 }

/-- Belt.addItemFactory: prepend the new item type with its weighting,
add the weighting to the total, and recompute every registered kinds
generationProbability as weight over the new total. -/
def Belt.addItemFactory (b : Belt) (newType : ItemType) (weighting : Nat) :
    Belt :=
  let total := b.totalItemWeighting + weighting
  let items := (RegItem.mk newType weighting 0 :: b.itemsToMake).map
    (fun r => { r with genProb := (r.weight : ℚ) / (total : ℚ) })
  { b with
      itemsToMake := items
      totalItemWeighting := total }

/-- Belt.addFinishedItem: prepend to the finished items list. -/
def Belt.addFinishedItem (b : Belt) (fit : ItemType) : Belt :=
  { b with finishedItems := fit :: b.finishedItems }

/-- The cumulative walk of Belt.getNextItem over the registered kinds. -/
def Belt.getNextItemAux (p : ℚ) : ℚ → List RegItem → Option ItemType
  | _, [] => none
  | cumulative, r :: rest =>
      let c := cumulative + r.genProb
      if p ≤ c then some r.item else Belt.getNextItemAux p c rest

/-- Belt.getNextItem: weighted draw of the next item for the entry slot.
The uniform random value p is passed in; the source obtains it from
getRandomNumber.  Returns none where the source prints Eeek and returns
NULL. -/
def Belt.getNextItem (b : Belt) (p : ℚ) : Option ItemType :=
  Belt.getNextItemAux p 0 b.itemsToMake

/-- The cumulative walk of Belt.getNextWorker: skip workers that have
done work, and return the list index and value of the first worker whose
cumulative probability reaches p. -/
def Belt.getNextWorkerAux (p : ℚ) : ℚ → Nat → List Worker → Option (Nat × Worker)
  | _, _, [] => none
  | cumulative, idx, wk :: rest =>
      if wk.doneWork then
        Belt.getNextWorkerAux p cumulative (idx + 1) rest
      else
        let c := cumulative + wk.workProbability
        if p ≤ c then some (idx, wk) else Belt.getNextWorkerAux p c (idx + 1) rest

/-- Belt.getNextWorker: weighted draw of the next worker to act, over the
workers that have not yet done work, with the draw scaled by the current
maximum probability space, which shrinks by the selected workers
probability.  Returns none where the source prints Eeek and returns
NULL. -/
def Belt.getNextWorker (b : Belt) (p0 : ℚ) : Option (Nat × Worker × Belt) :=
  let p := p0 * b.currentWorkerMaxProbability
  match Belt.getNextWorkerAux p 0 0 b.workers with
  | some (idx, wk) =>
      some (idx, wk,
        { b with currentWorkerMaxProbability :=
            b.currentWorkerMaxProbability - wk.workProbability })
  | none => none

/-- Belt.setSlot: direct indexed store into the slot buffer. -/
def Belt.setSlot (b : Belt) (itemType : Option ItemType) (slot : Int) : Belt :=
  { b with beltSlots := Function.update b.beltSlots slot itemType }

/-- Belt.getSlot: direct indexed load from the slot buffer. -/
def Belt.getSlot (b : Belt) (slot : Int) : Option ItemType :=
  b.beltSlots slot

/-- The list of Int loop indices i = hi, hi - 1, ... while i > lo,
matching a C for loop counting down. -/
def downIndices (hi lo : Int) : List Int :=
  (List.range (hi - lo).toNat).map (fun k => hi - (k : Int))

/-- Belt.advanceBelt: count the occupants of the n slots nearest the
exit, then run the shift loop i = numberOfSlots, ..., 1 storing
slot[i] := slot[i - n] when n ≤ i and NULL otherwise, exactly as the
source loop bounds have it, then reset the worker probability space and
the doneWork flags. -/
def Belt.advanceBelt (b : Belt) (n : Int) : Belt :=
  let lastSlot : Int := (b.numberOfSlots : Int) - 1
  let collected1 := (downIndices lastSlot (lastSlot - n)).foldl
    (fun (acc : ItemType → Nat) i =>
      match b.beltSlots i with
      | some it => fun j => if j = it then acc j + 1 else acc j
      | none => acc)
    b.collected
  let slots1 := (downIndices (b.numberOfSlots : Int) 0).foldl
    (fun (acc : Int → Option ItemType) i =>
      if n ≤ i then Function.update acc i (acc (i - n))
      else Function.update acc i none)
    b.beltSlots
  { b with
      beltSlots := slots1
      collected := collected1
      currentWorkerMaxProbability := 1
      workers := b.workers.map (fun wk => { wk with doneWork := false }) }

/-- The two failure modes of one simulation step: the item draw selected
nothing (the source prints an error and returns from runSim), or the
worker draw selected nothing (the source would dereference the NULL
worker pointer). -/
inductive StepError where
  | selectionExhausted
  | workerNull
deriving DecidableEq

/-- Stands for the NULL pointer that getFinishedItems would return if no
finished item were registered; doWork treats an item with the null id as
an empty slot, and the reference setup always registers a finished item,
so this default is never reached in the claims. -/
def nullPtrItem : ItemType := ItemType.mk 0 NULL_ITEM_ID none

/-- One iteration of the ProductionLine.runSim loop: draw the next item
(p1), advance the belt by one, deposit the item in slot zero, draw one
worker (p2), let it do work on the slot at its position, and write the
result back.  The returned list records the indices of the workers whose
doWork ran during the step. -/
def Belt.step (b0 : Belt) (p1 p2 : ℚ) : Except StepError (Belt × List Nat) :=
  match b0.getNextItem p1 with
  | none => Except.error StepError.selectionExhausted
  | some next =>
      let b1 := (b0.advanceBelt 1).setSlot (some next) 0
      match b1.getNextWorker p2 with
      | none => Except.error StepError.workerNull
      | some (idx, wk, b2) =>
          let workerPosition := wk.position
          let it := b2.getSlot (workerPosition : Int)
          let s := wk.doWork it (b2.finishedItems.headD nullPtrItem)
          let b3 := { b2 with workers := b2.workers.set idx s.2 }
          Except.ok (b3.setSlot s.1 (workerPosition : Int), [idx])

/-- ProductionLine.runSim, driven by a list of random draws (one item
draw and one worker draw per step).  Returns the final belt and the
number of completed steps; on a failed draw the loop stops at once and
the belt is returned as it was before the failing step. -/
def Belt.runSim (b : Belt) : List (ℚ × ℚ) → Belt × Nat
  | [] => (b, 0)
  | (p1, p2) :: rest =>
      match b.step p1 p2 with
      | Except.ok s =>
          let t := Belt.runSim s.1 rest
          (t.1, t.2 + 1)
      | Except.error _ => (b, 0)

/-- The length of the activation log of one step, or none when the step
fails. -/
def stepLogLength (b : Belt) (p1 p2 : ℚ) : Option Nat :=
  match b.step p1 p2 with
  | Except.ok s => some s.2.length
  | Except.error _ => none

/-- Component A of the reference setup. -/
def itemA : ItemType := ItemType.mk 65 65 none

/-- Component B of the reference setup. -/
def itemB : ItemType := ItemType.mk 66 66 none

/-- The finished component P, requiring A and B. -/
def itemP : ItemType := ItemType.mk 80 80 (some [65, 66])

/-- The null item of the reference setup. -/
def nullItem : ItemType := ItemType.mk 0 NULL_ITEM_ID none

/-- The belt built by main: five slots, factories A, B and null with
weighting 50 each, finished item P, and six workers in pairs at
positions one, two and three with the default weighting 50. -/
def refBelt : Belt :=
  ((((((((((Belt.new 5).addItemFactory itemA 50).addItemFactory itemB
    50).addItemFactory nullItem 50).addFinishedItem itemP).addWorker 1
    50).addWorker 1 50).addWorker 2 50).addWorker 2 50).addWorker 3
    50).addWorker 3 50

namespace SimpleSim

/-! Embedding of simple.c, the plain-array rewrite.  Components are the
unsigned char codes of the source; the belt is the five byte global
array, modelled as a function from Nat to Nat so that the store
performed through the worker position is a pointwise update. -/

/-- Component code for A. -/
def COMPONENT_A : Nat := 1

/-- Component code for B. -/
def COMPONENT_B : Nat := 2

/-- Component code for the finished component P. -/
def COMPONENT_P : Nat := 3

/-- Component code for the empty slot. -/
def COMPONENT_NULL : Nat := 0

/-- Building P requires four additional iterations. -/
def TIME_TO_BUILD_COMPONENT_P : Nat := 4

/-- The struct worker of simple.c. -/
structure worker where
  pos : Nat
  left : Nat
  right : Nat
  buildTimeLeft : Nat
deriving DecidableEq

/-- The pickup part of doWork in simple.c: reached when the worker is
neither assembling nor waiting to place a finished item.  Collect a raw
component from the belt slot, right hand first, refusing a duplicate of
the right hand; on filling the second hand, start building. -/
def pickupStage (w : worker) (belt : Nat → Nat) : worker × (Nat → Nat) :=
  if belt w.pos ≠ COMPONENT_NULL ∧ belt w.pos ≠ COMPONENT_P then
    if w.right = COMPONENT_NULL then
      ({ w with right := belt w.pos },
        Function.update belt w.pos COMPONENT_NULL)
    else if w.right ≠ belt w.pos then
      ({ w with left := belt w.pos,
                buildTimeLeft := TIME_TO_BUILD_COMPONENT_P },
        Function.update belt w.pos COMPONENT_NULL)
    else
      (w, belt)
  else
    (w, belt)

/-- The placement part of doWork in simple.c: if the right hand holds the
finished component, place it when the slot is empty (clearing both
hands) and otherwise hold onto it; when the right hand does not hold it,
fall through to the pickup part. -/
def placeStage (w : worker) (belt : Nat → Nat) : worker × (Nat → Nat) :=
  if w.right = COMPONENT_P then
    if belt w.pos = COMPONENT_NULL then
      ({ w with left := COMPONENT_NULL, right := COMPONENT_NULL },
        Function.update belt w.pos COMPONENT_P)
    else
      (w, belt)
  else
    pickupStage w belt

/-- doWork from simple.c: decrement a positive build time first and stop
there unless it just reached zero, in which case the finished component
appears in the right hand and control falls through to the placement
part. -/
def doWork (w : worker) (belt : Nat → Nat) : worker × (Nat → Nat) :=
  if 0 < w.buildTimeLeft then
    let w1 := { w with buildTimeLeft := w.buildTimeLeft - 1 }
    if w1.buildTimeLeft = 0 then
      placeStage { w1 with left := COMPONENT_NULL, right := COMPONENT_P } belt
    else
      (w1, belt)
  else
    placeStage w belt

end SimpleSim

/-- Input for the advanceBelt theorems: a five slot belt holding A, B,
empty, B, A in slots zero to four. -/
def beltC2 : Belt :=
  { Belt.new 5 with beltSlots := fun i =>
      if i = 0 then some itemA else if i = 1 then some itemB
      else if i = 3 then some itemB else if i = 4 then some itemA else none }

/-- Concrete worker holding A in the left hand, otherwise idle. -/
def wkC3 : Worker :=
  { position := 1, weight := 50, workProbability := 0, doneWork := false,
    amAssembling := 0, leftHand := some itemA, rightHand := none }

/-- Concrete worker with both hands empty, otherwise idle. -/
def wkEmptyHands : Worker :=
  { position := 2, weight := 50, workProbability := 0, doneWork := false,
    amAssembling := 0, leftHand := none, rightHand := none }

/-- Concrete worker one cycle away from finishing an assembly, holding A
and B. -/
def wkAsm1 : Worker :=
  { position := 1, weight := 50, workProbability := 0, doneWork := false,
    amAssembling := 1, leftHand := some itemA, rightHand := some itemB }

/-- Concrete idle worker with both hands full of A and B. -/
def wkFull : Worker :=
  { position := 1, weight := 50, workProbability := 0, doneWork := false,
    amAssembling := 0, leftHand := some itemA, rightHand := some itemB }

/-- The assemble check never modifies the hands. -/
theorem assembleCheck_hands (w : Worker) (ft : ItemType) :
    (w.assembleCheck ft).leftHand = w.leftHand ∧
    (w.assembleCheck ft).rightHand = w.rightHand := by
  unfold Worker.assembleCheck
  cases hl : w.leftHand with
  | none => simp [hl]
  | some l =>
      cases hr : w.rightHand with
      | none => simp [hl, hr]
      | some r =>
          by_cases ha : (ft.assemble [l, r]).isSome = true <;> simp [ha, hl, hr]

/-- When the hands hold a pair that assembles the finished thing, the
assemble check starts the countdown and changes nothing else. -/
theorem assembleCheck_of_hands (w : Worker) (ft l r : ItemType)
    (hl : w.leftHand = some l) (hr : w.rightHand = some r)
    (ha : (ft.assemble [l, r]).isSome = true) :
    w.assembleCheck ft = { w with amAssembling := ASSEMBLE_TIME } := by
  unfold Worker.assembleCheck
  rw [hl, hr]
  simp [ha]

/-- With both hands already full, the slot inspection changes nothing:
the offered pointer is returned and the worker is untouched. -/
theorem pickupPhase_hands_full (w : Worker) (it : Option ItemType)
    (l r : ItemType) (hl : w.leftHand = some l) (hr : w.rightHand = some r) :
    w.pickupPhase it = (it, w) := by
  cases it with
  | none => rfl
  | some i =>
      unfold Worker.pickupPhase Worker.pickupLeft Worker.pickupRight
      simp [hl, hr]

/-- Claim C1: the spec says every registered worker is activated exactly
once per step; in the code, one runSim iteration calls doWork on exactly
one worker (the single getNextWorker draw), never on all of them. -/
theorem c1_step_activates_exactly_one_worker (b : Belt) (p1 p2 : ℚ)
    (s : Belt × List Nat) (h : b.step p1 p2 = Except.ok s) :
    s.2.length = 1 := by
  unfold Belt.step at h
  cases hi : b.getNextItem p1 with
  | none => rw [hi] at h; simp at h
  | some next =>
      rw [hi] at h
      simp only at h
      cases hw : ((b.advanceBelt 1).setSlot (some next) 0).getNextWorker p2 with
      | none => rw [hw] at h; simp at h
      | some t =>
          obtain ⟨idx, wk, b2⟩ := t
          rw [hw] at h
          simp only [Except.ok.injEq] at h
          rw [← h]
          rfl

/-- Witness for C1: on the belt built by main, with draws one half and
one half, the step succeeds, exactly one of the six registered workers
is activated. -/
theorem c1_witness :
    stepLogLength refBelt (1/2) (1/2) = some 1 ∧
    refBelt.workers.length = 6 := by
  refine ⟨?_, rfl⟩
  cases h : refBelt.step (1/2) (1/2) with
  | ok s =>
      have h1 := c1_step_activates_exactly_one_worker refBelt (1/2) (1/2) s h
      unfold stepLogLength
      rw [h]
      simp [h1]
  | error e =>
      exfalso
      have h2 : stepLogLength refBelt (1/2) (1/2) = some 1 := by
        norm_num [stepLogLength, Belt.step, refBelt, Belt.getNextItem,
          Belt.getNextItemAux, Belt.getNextWorker, Belt.getNextWorkerAux,
          Belt.new, Belt.addItemFactory, Belt.addFinishedItem, Belt.addWorker,
          Belt.advanceBelt, Belt.setSlot, Belt.getSlot, downIndices,
          Worker.doWork, Worker.pickupPhase, Worker.pickupLeft,
          Worker.pickupRight, Worker.assembleCheck, ItemType.assemble,
          ASSEMBLE_TIME, NULL_ITEM_ID, itemA, itemB, itemP, nullItem,
          nullPtrItem, List.range_succ, Function.update]
      unfold stepLogLength at h2
      rw [h] at h2
      simp at h2

/-- Claim C2: on a five slot belt, advanceBelt 1 moves slot i to slot
i + 1 for i in 0..3 and counts the prior occupant of slot 4 exactly
once, but it does not empty the entry slot 0: the slot keeps its old
occupant (the zero-fill branch of the shift loop is unreachable for
n = 1). -/
theorem c2_shift_keeps_entry_slot :
    (beltC2.advanceBelt 1).beltSlots 1 = some itemA ∧
    (beltC2.advanceBelt 1).beltSlots 2 = some itemB ∧
    (beltC2.advanceBelt 1).beltSlots 3 = none ∧
    (beltC2.advanceBelt 1).beltSlots 4 = some itemB ∧
    (beltC2.advanceBelt 1).collected itemA = 1 ∧
    (beltC2.advanceBelt 1).collected itemB = 0 ∧
    (beltC2.advanceBelt 1).collected nullItem = 0 ∧
    (beltC2.advanceBelt 1).beltSlots 0 = some itemA ∧
    ¬ (beltC2.advanceBelt 1).beltSlots 0 = none := by
  decide

/-- Claim C9: the shift loop of advanceBelt starts at index
numberOfSlots, so it writes one slot past the logical range 0..N-1: on
the five slot belt the store at index 5 deposits the old slot 4
occupant there. -/
theorem c9_shift_writes_index_numberOfSlots :
    beltC2.numberOfSlots = 5 ∧
    beltC2.beltSlots 5 = none ∧
    (beltC2.advanceBelt 1).beltSlots 5 = some itemA := by
  decide

/-- Claim C7: when the weighted item draw selects no candidate, runSim
returns at once: the belt is unchanged, zero further steps execute, and
the remaining schedule is never consulted. -/
theorem c7_selection_exhausted_aborts (b : Belt) (p1 p2 : ℚ)
    (rest : List (ℚ × ℚ)) (h : b.getNextItem p1 = none) :
    Belt.runSim b ((p1, p2) :: rest) = (b, 0) := by
  simp [Belt.runSim, Belt.step, h]

/-- Witness for C7: a belt with no registered item kinds fails the draw
immediately and the two scheduled steps do not run. -/
theorem c7_witness :
    Belt.runSim (Belt.new 5) [(1/2, 1/2), (1/3, 1/3)] = (Belt.new 5, 0) :=
  c7_selection_exhausted_aborts (Belt.new 5) (1/2) (1/2) [(1/3, 1/3)] rfl

/-- Counterexample for C3: with A in the left hand and B offered, the
C++ worker enters Assembling with countdown four, but its hands are not
cleared: both still hold the components. -/
theorem c3_counterexample :
    (wkC3.doWork (some itemB) itemP).2.amAssembling = 4 ∧
    (wkC3.doWork (some itemB) itemP).2.leftHand = some itemA ∧
    (wkC3.doWork (some itemB) itemP).2.rightHand = some itemB ∧
    ¬ ((wkC3.doWork (some itemB) itemP).2.leftHand = none ∧
        (wkC3.doWork (some itemB) itemP).2.rightHand = none) := by
  decide

/-- Claim C3 as amended: when no assembly is in progress and the hand
contents after the slot inspection satisfy the finished kinds recipe,
the worker enters Assembling with its countdown set to ASSEMBLE_TIME
(four), but both hands retain their contents: the components are never
cleared. -/
theorem c3_assembling_entry_retains_hands (w : Worker) (it : Option ItemType)
    (ft l r : ItemType) (h0 : w.amAssembling = 0)
    (hl : (Worker.pickupPhase { w with doneWork := true } it).2.leftHand = some l)
    (hr : (Worker.pickupPhase { w with doneWork := true } it).2.rightHand = some r)
    (ha : (ft.assemble [l, r]).isSome = true) :
    (w.doWork it ft).2.amAssembling = ASSEMBLE_TIME ∧
    (w.doWork it ft).2.leftHand = some l ∧
    (w.doWork it ft).2.rightHand = some r := by
  have key : (w.doWork it ft).2 =
      { (Worker.pickupPhase { w with doneWork := true } it).2 with
          amAssembling := ASSEMBLE_TIME } := by
    unfold Worker.doWork
    rw [if_neg (by simp [h0])]
    exact assembleCheck_of_hands _ ft l r hl hr ha
  rw [key]
  exact ⟨rfl, hl, hr⟩

/-- Witness for C3 as amended: the concrete worker wkC3 offered B. -/
theorem c3_witness :
    (wkC3.doWork (some itemB) itemP).2.amAssembling = ASSEMBLE_TIME ∧
    (wkC3.doWork (some itemB) itemP).2.leftHand = some itemA := by
  have h := c3_assembling_entry_retains_hands wkC3 (some itemB) itemP itemA
    itemB rfl (by decide) (by decide) (by decide)
  exact ⟨h.1, h.2.1⟩

/-- Counterexample for C5: an idle C++ worker with empty hands offered
the finished item P, which carries a recipe and is not a raw component,
picks it up into the left hand and empties the slot. -/
theorem c5_counterexample :
    (wkEmptyHands.doWork (some itemP) itemP).2.leftHand = some itemP ∧
    (wkEmptyHands.doWork (some itemP) itemP).1 = none ∧
    itemP.componentsRequired ≠ none := by
  decide

/-- Claim C5 as amended: an idle C++ worker offered any occupant whose
id is not the null id picks it up, whether raw or finished (the
raw-only filter exists only in the simple.c variant): left hand first
when the right hand does not already hold that pointer, else right hand
when the left does not hold it; it refuses a pointer already held in
the other hand; on a successful pickup the slot becomes empty, and on a
refusal the slot and hands are unchanged. -/
theorem c5_pickup_any_nonnull (w : Worker) (i ft : ItemType)
    (h0 : w.amAssembling = 0) (hid : i.id ≠ NULL_ITEM_ID) :
    ((w.leftHand = none ∧ w.rightHand ≠ some i) →
      (w.doWork (some i) ft).1 = none ∧
      (w.doWork (some i) ft).2.leftHand = some i ∧
      (w.doWork (some i) ft).2.rightHand = w.rightHand) ∧
    ((w.leftHand ≠ none ∧ w.rightHand = none ∧ w.leftHand ≠ some i) →
      (w.doWork (some i) ft).1 = none ∧
      (w.doWork (some i) ft).2.leftHand = w.leftHand ∧
      (w.doWork (some i) ft).2.rightHand = some i) ∧
    (((w.leftHand = none ∧ w.rightHand = some i) ∨
      (w.leftHand = some i ∧ w.rightHand = none) ∨
      (w.leftHand ≠ none ∧ w.rightHand ≠ none)) →
      (w.doWork (some i) ft).1 = some i ∧
      (w.doWork (some i) ft).2.leftHand = w.leftHand ∧
      (w.doWork (some i) ft).2.rightHand = w.rightHand) := by
  unfold Worker.doWork
  rw [if_neg (by simp [h0])]
  simp only [Worker.pickupPhase, Worker.pickupLeft, Worker.pickupRight,
    if_neg hid]
  refine ⟨?_, ?_, ?_⟩
  · rintro ⟨hl, hr⟩
    simp [hl, hr, Ne.symm hr, assembleCheck_hands]
  · rintro ⟨hl, hr, hne⟩
    simp [hl, hr, hne, Ne.symm hne, assembleCheck_hands]
  · rintro (⟨hl, hr⟩ | ⟨hl, hr⟩ | ⟨hl, hr⟩)
    · simp [hl, hr, assembleCheck_hands]
    · simp [hl, hr, assembleCheck_hands]
    · simp [hl, hr, assembleCheck_hands]

/-- Witness for C5 as amended: the empty-handed worker offered A picks
it up with the left hand and the slot becomes empty. -/
theorem c5_witness :
    (wkEmptyHands.doWork (some itemA) itemP).1 = none ∧
    (wkEmptyHands.doWork (some itemA) itemP).2.leftHand = some itemA := by
  have h := (c5_pickup_any_nonnull wkEmptyHands itemA itemP rfl
    (by decide)).1 ⟨rfl, by decide⟩
  exact ⟨h.1, h.2.1⟩

/-- Counterexample for C6: a C++ worker one cycle from finishing,
offered component A, does not return the slot contents unchanged: the
finished item P replaces A, which is destroyed. -/
theorem c6_counterexample :
    (wkAsm1.doWork (some itemA) itemP).1 = some itemP ∧
    ¬ (wkAsm1.doWork (some itemA) itemP).1 = some itemA := by
  decide

/-- Claim C6 as amended: a worker whose countdown is positive consumes
nothing and, while the countdown stays positive after the decrement,
returns the slot contents unchanged with only the countdown (and the
doneWork flag) changing; but on the activation where the countdown
reaches zero, the finished item is returned as the slot contents,
replacing the offered component. -/
theorem c6_assembling_frame (w : Worker) (it : Option ItemType)
    (ft : ItemType) (h : 0 < w.amAssembling) :
    w.doWork it ft =
      (if w.amAssembling = 1 then some ft else it,
        { w with doneWork := true, amAssembling := w.amAssembling - 1 }) := by
  unfold Worker.doWork
  rw [if_pos (by simpa using h)]
  by_cases h1 : w.amAssembling = 1
  · simp [h1]
  · have h2 : ¬ w.amAssembling - 1 = 0 := by omega
    simp [h1, h2]

/-- Witness for C6 as amended: the concrete worker one cycle from
finishing returns P in place of the offered A. -/
theorem c6_witness :
    wkAsm1.doWork (some itemA) itemP =
      (some itemP, { wkAsm1 with doneWork := true, amAssembling := 0 }) := by
  have h := c6_assembling_frame wkAsm1 (some itemA) itemP (by decide)
  simpa using h

/-- Claim C4: a simple.c worker holding the finished component pending
placement (right hand P, no build in progress) places it into an empty
slot and clears both hands; when the slot is occupied the activation
changes nothing at all. -/
theorem c4_finished_item_placement (w : SimpleSim.worker) (belt : Nat → Nat)
    (hb : w.buildTimeLeft = 0) (hr : w.right = SimpleSim.COMPONENT_P) :
    (belt w.pos = SimpleSim.COMPONENT_NULL →
      SimpleSim.doWork w belt =
        ({ w with left := SimpleSim.COMPONENT_NULL,
                  right := SimpleSim.COMPONENT_NULL },
          Function.update belt w.pos SimpleSim.COMPONENT_P)) ∧
    (belt w.pos ≠ SimpleSim.COMPONENT_NULL →
      SimpleSim.doWork w belt = (w, belt)) := by
  unfold SimpleSim.doWork SimpleSim.placeStage
  rw [if_neg (by simp [hb]), if_pos hr]
  constructor
  · intro he
    rw [if_pos he]
  · intro he
    rw [if_neg he]

/-- Witness for C4: a worker at position one with P in the right hand
over an empty belt places it there and ends with empty hands. -/
theorem c4_witness :
    SimpleSim.doWork ⟨1, 0, 3, 0⟩ (fun _ => 0) =
      (⟨1, 0, 0, 0⟩, Function.update (fun _ => 0) 1 3) := by
  have h := c4_finished_item_placement ⟨1, 0, 3, 0⟩ (fun _ => 0) rfl rfl
  exact h.1 rfl

/-- Sum of the mapped weight divisions equals the summed weights divided
by the common total. -/
theorem sum_map_weight_div (l : List RegItem) (c : ℚ) :
    (l.map (fun r => (r.weight : ℚ) / c)).sum
      = (((l.map RegItem.weight).sum : Nat) : ℚ) / c := by
  induction l with
  | nil => simp
  | cons a t ih =>
      simp only [List.map_cons, List.sum_cons, ih]
      push_cast
      ring

/-- Claim C8: after a registration, every registered kinds generation
probability is its weight divided by the recomputed total weight of the
full pool, and the probabilities sum to one (probabilities modelled as
exact rationals). -/
theorem c8_probabilities_sum_to_one (b : Belt) (nt : ItemType) (w : Nat)
    (hinv : b.totalItemWeighting = (b.itemsToMake.map RegItem.weight).sum)
    (hpos : 0 < b.totalItemWeighting + w) :
    (∀ r ∈ (b.addItemFactory nt w).itemsToMake,
        r.genProb =
          (r.weight : ℚ) / (((b.addItemFactory nt w).totalItemWeighting : ℚ))) ∧
    ((b.addItemFactory nt w).itemsToMake.map RegItem.genProb).sum = 1 := by
  constructor
  · intro r hr
    simp only [Belt.addItemFactory, List.mem_map] at hr
    obtain ⟨r0, _, rfl⟩ := hr
    rfl
  · have hne : (((b.totalItemWeighting + w : Nat)) : ℚ) ≠ 0 := by
      have hq : (0 : ℚ) < ((b.totalItemWeighting + w : Nat) : ℚ) := by
        exact_mod_cast hpos
      exact ne_of_gt hq
    simp only [Belt.addItemFactory, List.map_map]
    have hcomp :
        (RegItem.genProb ∘ fun r : RegItem =>
            { r with genProb :=
                (r.weight : ℚ) / ((b.totalItemWeighting + w : Nat) : ℚ) })
          = fun r : RegItem =>
              (r.weight : ℚ) / ((b.totalItemWeighting + w : Nat) : ℚ) := rfl
    rw [hcomp, sum_map_weight_div]
    simp only [List.map_cons, List.sum_cons, ← hinv]
    rw [div_eq_one_iff_eq hne]
    push_cast
    ring

/-- Witness for C8: registering A with weight fifty on a fresh belt
yields probabilities summing to one. -/
theorem c8_witness :
    ((((Belt.new 5).addItemFactory itemA 50).itemsToMake.map
        RegItem.genProb).sum = 1) :=
  (c8_probabilities_sum_to_one (Belt.new 5) itemA 50 rfl (by norm_num)).2

/-- Claim C10: in the C++ core, a worker with both hands full keeps both
hands full (in fact unchanged) across any activation, and when idle with
an assemblable pair it re-enters Assembling with the fixed countdown, so
completed assemblies repeat without new components being picked up. -/
theorem c10_full_hands_stay_full (w : Worker) (it : Option ItemType)
    (ft l r : ItemType) (hl : w.leftHand = some l) (hr : w.rightHand = some r) :
    (w.doWork it ft).2.leftHand = some l ∧
    (w.doWork it ft).2.rightHand = some r ∧
    (w.amAssembling = 0 → (ft.assemble [l, r]).isSome = true →
      (w.doWork it ft).2.amAssembling = ASSEMBLE_TIME) := by
  unfold Worker.doWork
  by_cases h : 0 < w.amAssembling
  · rw [if_pos (by simpa using h)]
    refine ⟨hl, hr, ?_⟩
    intro h0
    omega
  · rw [if_neg (by simpa using h)]
    have hp := pickupPhase_hands_full { w with doneWork := true } it l r
      (by simpa using hl) (by simpa using hr)
    simp only [hp]
    have key := assembleCheck_of_hands { w with doneWork := true } ft l r
      (by simpa using hl) (by simpa using hr)
    by_cases ha : (ft.assemble [l, r]).isSome = true
    · rw [key ha]
      exact ⟨hl, hr, fun _ _ => rfl⟩
    · have hh := assembleCheck_hands { w with doneWork := true } ft
      refine ⟨?_, ?_, ?_⟩
      · rw [hh.1]; exact hl
      · rw [hh.2]; exact hr
      · intro _ ha2
        exact absurd ha2 ha

/-- Witness for C10: the full-handed idle worker holding A and B, shown
nothing on the belt, keeps A and B and starts assembling. -/
theorem c10_witness :
    (wkFull.doWork none itemP).2.leftHand = some itemA ∧
    (wkFull.doWork none itemP).2.rightHand = some itemB ∧
    (wkFull.doWork none itemP).2.amAssembling = ASSEMBLE_TIME := by
  have h := c10_full_hands_stay_full wkFull none itemP itemA itemB rfl rfl
  exact ⟨h.1, h.2.1, h.2.2 rfl (by decide)⟩
